import Mathlib

/-!
Shallow embedding of the 3D-Authoring-Script pipeline (a Python command-line
workflow that converts a side-by-side 3D video into a Blu-ray 3D structure).

Each definition below is translated from one place in the Python source:
  * `src/utils/video_analyzer.py` — SBS-format detection and crop geometry,
  * `src/3D.py` — the skip-encoding resumability check and the post-mux step,
  * `src/utils/encoder.py` — chunked encoding, concatenation, NAL-marker scan,
  * `src/utils/muxer.py` — the dependent-view chunk pre-check,
  * `src/utils/check_dependencies.py` — the PATH / version dependency gate,
  * `src/utils/track_selector.py` — interactive track selection,
  * `src/utils/bdmv_validator.py` — the post-mux validation pass.

Modelling conventions: the working directory is a duplicate-free
`List String` of file names; external processes (ffprobe / ffmpeg / FRIMEncode64 / tsMuxeR) are
represented by the data they would return; Python floats are modelled as
rationals; Python byte strings as `List Nat`.
-/

/-! ### Generic helper: Python's substring / subsequence containment
`needle in haystack` on `bytes` and `str` is contiguous-subsequence search. -/

/-- Check via `seqStartsWith p l` whether `p` is an initial segment of `l`. -/
def seqStartsWith {α : Type} [DecidableEq α] : List α → List α → Bool
  | [], _ => true
  | _ :: _, [] => false
  | a :: ps, b :: ds => decide (a = b) && seqStartsWith ps ds

/-- Here `seqContains p l` is Python's `p in l` for byte/char sequences:
`p` occurs contiguously somewhere inside `l`. -/
def seqContains {α : Type} [DecidableEq α] (pat : List α) : List α → Bool
  | [] => pat.isEmpty
  | b :: ds => seqStartsWith pat (b :: ds) || seqContains pat ds

/-! ### `src/utils/video_analyzer.py` -/

/-- From `analyze_video` (video_analyzer.py lines 82-86): the 3D SBS format is
decided by the storage aspect ratio `total_width / total_height` against the
threshold `2.5`. -/
def sbs_type (total_width total_height : Nat) : String :=
  if (total_width : ℚ) / (total_height : ℚ) > 2.5 then "Full SBS" else "Half SBS"

/-- The geometry fields that `analyze_video` derives from crop detection
(video_analyzer.py lines 104-128). -/
structure CropGeometry where
  has_black_bars : Bool
  active_width : Int
  active_height : Int
  top_bar_height : Int
  bottom_bar_height : Int
deriving DecidableEq

/-- From `analyze_video` (video_analyzer.py lines 104-128): `crop` is the
parsed `crop=w:h:x:y` quadruple from ffmpeg's cropdetect output, or `none`
when cropdetect failed or printed no crop line (both the no-crop-line branch
at lines 106-111 and the exception branch at lines 122-128 fill in the same
defaults). -/
def crop_geometry (total_width total_height : Nat)
    (crop : Option (Nat × Nat × Nat × Nat)) : CropGeometry :=
  match crop with
  | none =>
    { has_black_bars := false, active_width := total_width,
      active_height := total_height, top_bar_height := 0, bottom_bar_height := 0 }
  | some (w, h, _x, y) =>
    let top : Int := y
    let bottom : Int := (total_height : Int) - (h : Int) - (y : Int)
    { has_black_bars := decide (0 < top) || decide (0 < bottom),
      active_width := w, active_height := h,
      top_bar_height := top, bottom_bar_height := bottom }

/-! ### `src/3D.py` — `should_skip_encoding` (lines 40-66) -/

/-- The observable state of the temporary working directory, as consulted by
`should_skip_encoding`. `left_eye_size` is the value `os.path.getsize` would
return for `left_eye.264` (only ever consulted when the file exists, because
of Python's short-circuit `and`). -/
structure WorkDir where
  is_dir : Bool
  listing : List String
  left_eye_exists : Bool
  left_eye_size : Nat

/-- Python's `s.startswith(pre)`, on the underlying character sequences. -/
def py_startswith (s pre : String) : Bool :=
  seqStartsWith pre.toList s.toList

/-- Python's `s.endswith(suf)`, on the underlying character sequences. -/
def py_endswith (s suf : String) : Bool :=
  seqStartsWith suf.toList.reverse s.toList.reverse

/-- The file-name pattern used both by `should_skip_encoding` (3D.py line 45)
and by `create_bluray_structure` (muxer.py line 41):
`f.startswith('temp_chunk_') and f.endswith('_dep.264')`. -/
def is_dep_chunk_name (f : String) : Bool :=
  py_startswith f "temp_chunk_" && py_endswith f "_dep.264"

/-- From 3D.py lines 43-45: a dependent-view chunk exists when the working
directory is a directory and some listed name matches the pattern. -/
def dep_chunks_exist (w : WorkDir) : Bool :=
  w.is_dir && w.listing.any is_dep_chunk_name

/-- From `should_skip_encoding` (3D.py lines 40-66). `user_says_yes` is the answer
the yes/no dialog would return; it is only consulted on the
`files_exist_and_are_valid` branch. -/
def should_skip_encoding (w : WorkDir) (user_says_yes : Bool) : Bool :=
  let files_exist_and_are_valid :=
    w.left_eye_exists && decide (0 < w.left_eye_size) && dep_chunks_exist w
  if files_exist_and_are_valid then user_says_yes else false

/-! ### `src/utils/encoder.py` — chunked encoding -/

/-- encoder.py line 283. -/
def CHUNK_SIZE_FRAMES : Nat := 300

/-- encoder.py line 301: `num_chunks = (total_frames + CHUNK_SIZE_FRAMES - 1) // CHUNK_SIZE_FRAMES`. -/
def num_chunks (total_frames : Nat) : Nat :=
  (total_frames + CHUNK_SIZE_FRAMES - 1) / CHUNK_SIZE_FRAMES

/-- encoder.py line 313: `start_frame = i * CHUNK_SIZE_FRAMES`. -/
def start_frame (i : Nat) : Nat := i * CHUNK_SIZE_FRAMES

/-- encoder.py line 314: `frames_in_this_chunk = min(CHUNK_SIZE_FRAMES, total_frames - start_frame)`. -/
def frames_in_chunk (total_frames i : Nat) : Nat :=
  min CHUNK_SIZE_FRAMES (total_frames - start_frame i)

/-- From `_contains_mvc_nal_units` (encoder.py lines 146-168): scan the byte
content for `00 00 01 0F` (start code + NAL type 15, subset SPS) or
`00 00 01 14` (start code + NAL type 20, coded slice extension). -/
def contains_mvc_nal_units (data : List Nat) : Bool :=
  seqContains [0x00, 0x00, 0x01, 0x0f] data || seqContains [0x00, 0x00, 0x01, 0x14] data

/-- encoder.py lines 444-447: when the MVC NAL check on the concatenated
dependent stream fails, `create_3d_video_streams` calls `sys.exit(1)`;
`some 1` models that nonzero exit, `none` means execution continues. -/
def mvc_check_exit (dep_stream : List Nat) : Option Nat :=
  if contains_mvc_nal_units dep_stream then none else some 1

/-! ### `src/utils/encoder.py` — effect of a successful run on the working
directory, modelled as the duplicate-free `List String` of file names it
contains. -/

/-- Creating (or truncating) a file: the directory gains the name if it was
not already present. -/
def add_file (d : List String) (f : String) : List String :=
  if f ∈ d then d else d ++ [f]

/-- Model of `os.remove`: the name disappears from the directory. -/
def remove_file (d : List String) (f : String) : List String := d.erase f

/-- encoder.py line 286. -/
def encoder_log_name : String := "encoder_process.log"

/-- encoder.py line 320. -/
def left_chunk_yuv (i : Nat) : String := "temp_chunk_" ++ toString i ++ "_left.yuv"

/-- encoder.py line 321. -/
def right_chunk_yuv (i : Nat) : String := "temp_chunk_" ++ toString i ++ "_right.yuv"

/-- encoder.py line 322. -/
def base_chunk_264 (i : Nat) : String := "temp_chunk_" ++ toString i ++ "_base.264"

/-- encoder.py line 323. -/
def dep_chunk_264 (i : Nat) : String := "temp_chunk_" ++ toString i ++ "_dep.264"

/-- One successful loop iteration of `create_3d_video_streams`
(encoder.py lines 312-429): ffmpeg writes the two YUV chunks, FRIMEncode64
writes the base and dependent `.264` chunks, and the `finally` block removes
the two YUV files. -/
def process_chunk (d : List String) (i : Nat) : List String :=
  remove_file (remove_file
    (add_file (add_file (add_file (add_file d (left_chunk_yuv i))
      (right_chunk_yuv i)) (base_chunk_264 i)) (dep_chunk_264 i))
    (left_chunk_yuv i)) (right_chunk_yuv i)

/-- From `_concatenate_chunks` (encoder.py lines 95-107): the output file is
created, and the `finally` block deletes every chunk file. -/
def concatenate_chunks (chunk_files : List String) (out : String)
    (d : List String) : List String :=
  chunk_files.foldl remove_file (add_file d out)

/-- The working-directory contents after `create_3d_video_streams` completes
successfully (encoder.py lines 274-467): the encoder log is created
(line 307), every chunk is processed, then the base chunks are concatenated
into `left_eye.264` (lines 433-434) and the dependent chunks into
`right_eye.264` (lines 435-436), deleting the per-chunk files. -/
def create_3d_video_streams_files (total_frames : Nat) (d : List String) :
    List String :=
  let d1 := add_file d encoder_log_name
  let d2 := (List.range (num_chunks total_frames)).foldl process_chunk d1
  let d3 := concatenate_chunks ((List.range (num_chunks total_frames)).map base_chunk_264)
    "left_eye.264" d2
  concatenate_chunks ((List.range (num_chunks total_frames)).map dep_chunk_264)
    "right_eye.264" d3

/-! ### `src/utils/muxer.py` — `create_bluray_structure` input pre-check -/

/-- muxer.py lines 40-43: the set of working-directory files matching
`temp_chunk_*_dep.264` that the muxer will feed to tsMuxeR. -/
def muxer_dep_chunk_search (d : List String) : List String :=
  d.filter is_dep_chunk_name

/-- The two fail-fast input checks at the top of `create_bluray_structure`. -/
inductive MuxerPrecheck where
  /-- Both required inputs were found; muxing proceeds. -/
  | ok
  /-- muxer.py lines 51-53: `left_eye.264` missing, `sys.exit(1)`. -/
  | missing_left_eye
  /-- muxer.py lines 54-57: no `temp_chunk_*_dep.264` files,
  `sys.exit(1)` with the `Dependent view chunks (*_dep.264) not found` error. -/
  | missing_dep_chunks
deriving DecidableEq

/-- muxer.py lines 51-57. -/
def create_bluray_structure_precheck (d : List String) : MuxerPrecheck :=
  if "left_eye.264" ∉ d then .missing_left_eye
  else if muxer_dep_chunk_search d = [] then .missing_dep_chunks
  else .ok

/-! ### `src/3D.py` — the post-mux validation call (lines 149-162) -/

/-- The positional-parameter count of a Python function together with how
many of those parameters carry default values. -/
structure PyCallSig where
  pos_params : Nat
  defaults : Nat

/-- Python call binding for plain positional calls: a call with `n`
positional arguments succeeds iff every non-defaulted parameter is supplied
and no extra arguments remain; otherwise the call raises `TypeError`. -/
def accepts_n_args (sig : PyCallSig) (n : Nat) : Bool :=
  decide (sig.pos_params - sig.defaults ≤ n) && decide (n ≤ sig.pos_params)

/-- The signature of `validate_bdmv_structure` (bdmv_validator.py line 194):
`def validate_bdmv_structure(bdmv_root_path, properties)`, no defaults. -/
def validate_bdmv_structure_sig : PyCallSig := { pos_params := 2, defaults := 0 }

/-- From 3D.py line 151: the call passes exactly one positional argument:
`validate_bdmv_structure(output_bdmv_path)`. -/
def main_validate_call_arg_count : Nat := 1

/-- What `main` reports after a successful mux (3D.py lines 149-162). -/
inductive PostMuxOutcome where
  /-- `--- Validation Successful ---` is printed (3D.py lines 153-155). -/
  | validationSuccessful
  /-- `--- Validation Failed ---` is printed (3D.py lines 156-158). -/
  | validationFailed
  /-- The `except Exception` handler prints
  `--- An unexpected error occurred ... ---` (3D.py lines 160-162). -/
  | unexpectedError
deriving DecidableEq

/-- The post-mux step of `main`: the call `validate_bdmv_structure(output_bdmv_path)`
is attempted; if Python can bind the arguments, the validator's boolean result
selects the message, otherwise the raised `TypeError` propagates to the
generic handler. `validator_result` is what `validate_bdmv_structure` would
return if it were entered. -/
def main_post_mux (validator_result : Bool) : PostMuxOutcome :=
  if accepts_n_args validate_bdmv_structure_sig main_validate_call_arg_count then
    if validator_result then .validationSuccessful else .validationFailed
  else .unexpectedError

/-! ### `src/utils/check_dependencies.py` -/

/-- The environment `check_system_dependencies` consults: `which` is
`shutil.which` (PATH lookup), and `tsmuxer_probe` is the combined
stdout+stderr of running `tsmuxer` with no arguments (`none` when the
invocation timed out or could not start, which the script only warns
about). -/
structure SysEnv where
  which : String → Option String
  tsmuxer_probe : Option String

/-- check_dependencies.py lines 12-17: the tools the checker looks for. -/
def dependencies : List String := ["ffmpeg", "ffprobe", "tsmuxer", "mkvextract"]

/-- Decimal value of a digit run (used for the captured regex groups). -/
def digits_to_nat (ds : List Char) : Nat :=
  ds.foldl (fun acc c => acc * 10 + (c.toNat - 48)) 0

/-- Match `git-(\d{4})` at the current position only. -/
def git_year_at : List Char → Option Nat
  | 'g' :: 'i' :: 't' :: '-' :: d1 :: d2 :: d3 :: d4 :: _ =>
    if d1.isDigit && d2.isDigit && d3.isDigit && d4.isDigit then
      some (digits_to_nat [d1, d2, d3, d4])
    else none
  | _ => none

/-- Model of `re.search(r'git-(\d{4})', output)` (check_dependencies.py line 42):
leftmost occurrence of `git-` followed by four digits, returning the
captured year. -/
def find_git_year : List Char → Option Nat
  | [] => none
  | c :: rest =>
    match git_year_at (c :: rest) with
    | some year => some year
    | none => find_git_year rest

/-- After a case-insensitive `version` has been matched, try to match
`\s+(\d+)\.(\d+)`: at least one whitespace character, a digit run, a dot,
and a second digit run. -/
def match_version_after (l : List Char) : Option (Nat × Nat) :=
  match l with
  | c :: rest =>
    if c.isWhitespace then
      let rest2 := rest.dropWhile Char.isWhitespace
      let (ds1, r1) := rest2.span Char.isDigit
      if ds1.isEmpty then none
      else
        match r1 with
        | '.' :: r2 =>
          let (ds2, _r3) := r2.span Char.isDigit
          if ds2.isEmpty then none
          else some (digits_to_nat ds1, digits_to_nat ds2)
        | _ => none
    else none
  | [] => none

/-- Case-folded comparison of one input character against a lowercase
pattern character (`re.IGNORECASE`). -/
def lower_eq (a b : Char) : Bool := decide (a.toLower = b)

/-- Model of `re.search(r'version\s+(\d+)\.(\d+)', output, re.IGNORECASE)`
(check_dependencies.py line 51): leftmost case-insensitive `version`
followed by whitespace and a `major.minor` pair, matched here at the
current position only. -/
def version_at : List Char → Option (Nat × Nat)
  | c1 :: c2 :: c3 :: c4 :: c5 :: c6 :: c7 :: rest =>
    if lower_eq c1 'v' && lower_eq c2 'e' && lower_eq c3 'r' && lower_eq c4 's'
        && lower_eq c5 'i' && lower_eq c6 'o' && lower_eq c7 'n' then
      match_version_after rest
    else none
  | _ => none

/-- Leftmost-position driver for `version_at`. -/
def find_version_pair : List Char → Option (Nat × Nat)
  | [] => none
  | c :: rest =>
    match version_at (c :: rest) with
    | some p => some p
    | none => find_version_pair rest

/-- check_dependencies.py lines 34-56: the output is accepted when it names
the justdan96 fork and either carries a `git-YYYY` datestamp with
`YYYY >= 2023` or, failing that, a version number with major `>= 2`. -/
def tsmuxer_output_is_modern (out : String) : Bool :=
  let cs := out.toList
  if seqContains "github.com/justdan96/tsMuxer".toList cs then
    (match find_git_year cs with
      | some year => decide (2023 ≤ year)
      | none => false)
    || (match find_version_pair cs with
      | some (major, _minor) => decide (2 ≤ major)
      | none => false)
  else false

/-- From `check_system_dependencies` (check_dependencies.py lines 6-84): `some 1`
models `sys.exit(1)`, `none` a normal return. The version probe only runs
when `tsmuxer` was found, and a failed probe merely warns. -/
def check_system_dependencies (env : SysEnv) : Option Nat :=
  let all_found := dependencies.all (fun dep => (env.which dep).isSome)
  let version_ok :=
    if (env.which "tsmuxer").isSome then
      match env.tsmuxer_probe with
      | some out => tsmuxer_output_is_modern out
      | none => true
    else true
  if all_found && version_ok then none else some 1

/-- A PATH on which the four checked tools exist (with a modern tsMuxeR)
but the stereoscopic encoder `FRIMEncode64` does not. -/
def frim_absent_env : SysEnv :=
  { which := fun dep => if dep ∈ dependencies then some ("/usr/bin/" ++ dep) else none,
    tsmuxer_probe := some "tsMuxeR git-2024 github.com/justdan96/tsMuxer" }

/-! ### `src/utils/track_selector.py` -/

/-- A Python dictionary value as seen by `select_tracks`: either a list of
stream-description dictionaries (the two stream keys) or some other value
(`α` is the type of one stream description, `β` that of all other values). -/
inductive PyVal (α β : Type) where
  | streams : List α → PyVal α β
  | other : β → PyVal α β
deriving DecidableEq

/-- The properties dictionary: insertion-ordered keys, unique by
construction of the operations below. -/
abbrev PyDict (α β : Type) := List (String × PyVal α β)

/-- Python `d[k]` lookup (first matching key). -/
def dict_lookup {α β : Type} (k : String) : PyDict α β → Option (PyVal α β)
  | [] => none
  | (k₁, v) :: rest => if k₁ = k then some v else dict_lookup k rest

/-- Python `d[k] = v`: replace in place, or append a new key. -/
def dict_set {α β : Type} (d : PyDict α β) (k : String) (v : PyVal α β) :
    PyDict α β :=
  match d with
  | [] => [(k, v)]
  | (k₁, v₁) :: rest => if k₁ = k then (k, v) :: rest else (k₁, v₁) :: dict_set rest k v

/-- Model of `properties.get(key, [])` (track_selector.py lines 62-63), under the
expectation that the key, when present, holds a stream list; `none` models
the type error the Python code would hit on any other value. -/
def dict_get_streams {α β : Type} (d : PyDict α β) (k : String) :
    Option (List α) :=
  match dict_lookup k d with
  | none => some []
  | some (.streams l) => some l
  | some (.other _) => none

/-- Python's `s.lower()`, on the underlying character sequence. -/
def py_lower (s : String) : String := String.mk (s.toList.map Char.toLower)

/-- Python's `s.strip()`: drop whitespace from both ends. -/
def py_strip (s : String) : String :=
  String.mk (((s.toList.dropWhile Char.isWhitespace).reverse.dropWhile
    Char.isWhitespace).reverse)

/-- Python's `s.split(',')` on the underlying character sequence
(`''.split(',') == ['']`). -/
def split_on_comma : List Char → List (List Char)
  | [] => [[]]
  | c :: rest =>
    let groups := split_on_comma rest
    if c = ',' then [] :: groups
    else
      match groups with
      | [] => [[c]]
      | g :: gs => (c :: g) :: gs

/-- One pass of the prompt loop body of `_select_streams_by_type`
(track_selector.py lines 22-47), iterated over the successive strings the
user types (`int_parse` stands for Python's `int`; the loop keeps prompting
on invalid input, so exhausting `inputs` means the loop is still running). -/
def select_streams_loop {α : Type} (streams : List α)
    (int_parse : String → Option Int) : List String → Option (List α)
  | [] => none
  | raw :: rest =>
    let user_input := py_strip (py_lower raw)
    if user_input = "" || user_input = "all" then some streams
    else if user_input = "none" then some []
    else
      match ((split_on_comma user_input.toList).map String.mk).mapM
          (fun x => int_parse (py_strip x)) with
      | none => select_streams_loop streams int_parse rest
      | some parsed =>
        let selected_indices := parsed.map (fun x => x - 1)
        if selected_indices.any (fun i => i < 0 || (streams.length : Int) ≤ i) then
          select_streams_loop streams int_parse rest
        else
          some (selected_indices.filterMap (fun i => streams.get? i.toNat))

/-- From `_select_streams_by_type` (track_selector.py lines 3-47): an empty
stream list short-circuits to an empty selection without prompting. -/
def select_streams_by_type {α : Type} (streams : List α)
    (int_parse : String → Option Int) (inputs : List String) : Option (List α) :=
  if streams.isEmpty then some [] else select_streams_loop streams int_parse inputs

/-- From `select_tracks` (track_selector.py lines 49-73): read both stream lists,
run the interactive selection for each, then copy the dictionary and
overwrite the two stream keys with the selections. -/
def select_tracks {α β : Type} (props : PyDict α β)
    (int_parse : String → Option Int) (audio_inputs subtitle_inputs : List String) :
    Option (PyDict α β) :=
  match dict_get_streams props "audio_streams",
      dict_get_streams props "subtitle_streams" with
  | some audio_streams, some subtitle_streams =>
    match select_streams_by_type audio_streams int_parse audio_inputs,
        select_streams_by_type subtitle_streams int_parse subtitle_inputs with
    | some selected_audio, some selected_subtitles =>
      some (dict_set (dict_set props "audio_streams" (.streams selected_audio))
        "subtitle_streams" (.streams selected_subtitles))
    | _, _ => none
  | _, _ => none

/-- A small concrete properties dictionary used to witness the
`select_tracks` theorem. -/
def c9_props : PyDict Nat Bool :=
  [("total_frames", .other true), ("audio_streams", .streams [7, 8]),
    ("subtitle_streams", .streams [9])]

/-- A concrete stand-in for Python's `int` parser. -/
def c9_parse : String → Option Int := fun s => if s = "2" then some 2 else none

/-- The dictionary `select_tracks` produces from `c9_props` when the user
answers `2` for audio and `none` for subtitles. -/
def c9_out : PyDict Nat Bool :=
  [("total_frames", .other true), ("audio_streams", .streams [8]),
    ("subtitle_streams", .streams [])]

/-! ### `src/utils/bdmv_validator.py` -/

/-- One entry of ffprobe's `streams` array, with the fields this repository
ever reads (encoder.py lines 45-81 and bdmv_validator.py lines 48-86). -/
structure ProbedStream where
  codec_type : String
  codec_name : String
  profile : String
  r_frame_rate : String
  sample_aspect_ratio : String
  pix_fmt : String
  level : Int
  refs : Int
  has_b_frames : Int
deriving DecidableEq

/-- The fields of the analyzer's properties dictionary consulted by the
validator (`.get` can miss, hence the `Option`s). -/
structure BdProps where
  fps_string : Option String
  fps_float : Option ℚ
  total_frames : Option Int

/-- The produced output tree and the probe results on it, as consulted by
`validate_bdmv_structure`: which relative paths exist as files/directories,
what ffprobe reports for the main `.m2ts` (`none` models a probe/parse
failure), the DTS timestamp list of the timing probe (already filtered of
`N/A` entries, as in bdmv_validator.py line 111), the playlist's bytes and
the parsed frame-count probe. -/
structure BdmvState where
  is_output_dir : Bool
  files_present : List String
  dirs_present : List String
  m2ts_probe : Option (List ProbedStream)
  timing_probe : Option (List ℚ)
  mpls_bytes : List Nat
  frame_count_probe : Option Int

/-- bdmv_validator.py lines 11-22: the mandatory files (the `CERTIFICATE`
entry is checked as a directory, separately). -/
def required_bdmv_files : List String :=
  ["BDMV/index.bdmv", "BDMV/MovieObject.bdmv", "BDMV/CLIPINF/00000.clpi",
    "BDMV/PLAYLIST/00000.mpls", "BDMV/STREAM/00000.m2ts",
    "BDMV/BACKUP/index.bdmv", "BDMV/BACKUP/MovieObject.bdmv",
    "BDMV/BACKUP/CLIPINF/00000.clpi", "BDMV/BACKUP/PLAYLIST/00000.mpls"]

/-- From `_check_file_structure` (bdmv_validator.py lines 6-32). -/
def check_file_structure (st : BdmvState) : Bool :=
  required_bdmv_files.all (fun p => decide (p ∈ st.files_present))
    && decide ("CERTIFICATE" ∈ st.dirs_present)

/-- Model of `os.path.exists` on the main stream path (bdmv_validator.py line 208). -/
def m2ts_exists (st : BdmvState) : Bool :=
  decide ("BDMV/STREAM/00000.m2ts" ∈ st.files_present)

/-- Model of `os.path.exists` on the playlist path (bdmv_validator.py line 209). -/
def mpls_exists (st : BdmvState) : Bool :=
  decide ("BDMV/PLAYLIST/00000.mpls" ∈ st.files_present)

/-- The codec and frame-rate checks `_check_m2ts_stream` applies to the base
view (bdmv_validator.py lines 71-87). -/
def base_view_checks (v : ProbedStream) (props : BdProps) : Bool :=
  decide (v.codec_name = "h264")
    && decide (v.r_frame_rate = props.fps_string.getD "24000/1001")

/-- From `_check_m2ts_stream` (bdmv_validator.py lines 34-92): accept a single
video stream only with the `Stereo High` profile, or exactly two video
streams validating the first; then check codec and frame rate. -/
def check_m2ts_stream (st : BdmvState) (props : BdProps) : Bool :=
  if m2ts_exists st = false then false
  else
    match st.m2ts_probe with
    | none => false
    | some streams =>
      match streams.filter (fun s => decide (s.codec_type = "video")) with
      | [v] => base_view_checks v props && decide (v.profile = "Stereo High")
      | [v, _] => base_view_checks v props
      | _ => false

/-- The jump counter of `_check_timing_jumps` (bdmv_validator.py
lines 127-132): count consecutive deltas outside the tolerance. -/
def count_timing_jumps (expected_delta tolerance : ℚ) : List ℚ → Nat
  | a :: b :: rest =>
    (if |b - a - expected_delta| > tolerance then 1 else 0)
      + count_timing_jumps expected_delta tolerance (b :: rest)
  | _ => 0

/-- From `_check_timing_jumps` (bdmv_validator.py lines 94-143): fewer than two
timestamps, or a missing/zero expected fps, skip the check; otherwise no
delta may deviate from `1/fps` by more than ten percent of it. -/
def check_timing_jumps (st : BdmvState) (props : BdProps) : Bool :=
  if m2ts_exists st = false then false
  else
    match st.timing_probe with
    | none => false
    | some timestamps =>
      if timestamps.length < 2 then true
      else
        match props.fps_float with
        | none => true
        | some fps =>
          if fps = 0 then true
          else
            let expected_delta := 1 / fps
            let tolerance := expected_delta * (1 / 10)
            decide (count_timing_jumps expected_delta tolerance timestamps = 0)

/-- From `_check_mpls_file` (bdmv_validator.py lines 145-164): the first four
bytes must read `MPLS`. -/
def check_mpls_file (st : BdmvState) : Bool :=
  if mpls_exists st = false then false
  else decide (st.mpls_bytes.take 4 = [77, 80, 76, 83])

/-- From `_check_frame_count` (bdmv_validator.py lines 166-192): the counted
frames must be within 2 of the expectation; a failed probe or unparsable
count fails the check. -/
def check_frame_count (st : BdmvState) (props : BdProps) : Bool :=
  if m2ts_exists st = false then false
  else
    match st.frame_count_probe with
    | none => false
    | some actual =>
      decide ((actual - props.total_frames.getD 0).natAbs ≤ 2)

/-- From `validate_bdmv_structure` (bdmv_validator.py lines 194-219). -/
def validate_bdmv_structure (st : BdmvState) (props : BdProps) : Bool :=
  if st.is_output_dir = false then false
  else
    check_file_structure st && check_m2ts_stream st props
      && check_timing_jumps st props && check_mpls_file st
      && check_frame_count st props

/-- The per-stream Blu-ray compliance criteria of the repository's own
`_verify_stream_with_ffprobe` (encoder.py lines 63-81): profile `High`,
level 41, square SAR, `yuv420p`, at most 4 reference frames, no B-frames. -/
def stream_is_bluray_compliant (s : ProbedStream) : Bool :=
  decide (s.profile = "High") && decide (s.level = 41)
    && decide (s.sample_aspect_ratio = "1:1") && decide (s.pix_fmt = "yuv420p")
    && decide (s.refs ≤ 4) && decide (s.has_b_frames = 0)

/-- A probed base-view stream whose SAR, pixel format, reference-frame count
and B-frame usage all violate the compliance criteria. -/
def c3_stream : ProbedStream :=
  { codec_type := "video", codec_name := "h264", profile := "Stereo High",
    r_frame_rate := "24000/1001", sample_aspect_ratio := "2:1",
    pix_fmt := "yuv444p", level := 40, refs := 16, has_b_frames := 2 }

/-- Expected properties matching `c3_state`. -/
def c3_props : BdProps :=
  { fps_string := some "24000/1001", fps_float := some (24000 / 1001 : ℚ),
    total_frames := some 100 }

/-- A complete output tree whose main stream is `c3_stream`, with a timing
probe the validator itself skips (fewer than two timestamps), a valid
playlist header, and a frame count within tolerance. -/
def c3_state : BdmvState :=
  { is_output_dir := true,
    files_present := required_bdmv_files,
    dirs_present := ["CERTIFICATE"],
    m2ts_probe := some [c3_stream],
    timing_probe := some [],
    mpls_bytes := [77, 80, 76, 83, 48, 50, 48, 48],
    frame_count_probe := some 101 }

/-- Prop-level reading of `_check_m2ts_stream`'s accepted shapes: one video
stream with the `Stereo High` profile, or two video streams, the base view
carrying the right codec and frame rate. -/
def base_view_ok (ss : List ProbedStream) (props : BdProps) : Prop :=
  (∃ v, ss.filter (fun s => decide (s.codec_type = "video")) = [v]
    ∧ v.profile = "Stereo High" ∧ v.codec_name = "h264"
    ∧ v.r_frame_rate = props.fps_string.getD "24000/1001")
  ∨ (∃ v w, ss.filter (fun s => decide (s.codec_type = "video")) = [v, w]
    ∧ v.codec_name = "h264"
    ∧ v.r_frame_rate = props.fps_string.getD "24000/1001")

/-- Prop-level reading of `_check_timing_jumps`: the probe succeeded and
either the check is skipped (fewer than two timestamps, or no usable fps)
or every consecutive delta stays within ten percent of `1 / fps`. -/
def timing_ok (st : BdmvState) (props : BdProps) : Prop :=
  ∃ ts, st.timing_probe = some ts
    ∧ (ts.length < 2 ∨ props.fps_float = none ∨ props.fps_float = some 0
      ∨ ∃ q, props.fps_float = some q ∧ q ≠ 0
        ∧ List.Chain' (fun a b => |b - a - 1 / q| ≤ (1 / q) * (1 / 10)) ts)

/-! ### Theorems -/

/-- Characterization of `seqStartsWith` as list-prefix. -/
theorem seqStartsWith_iff {α : Type} [DecidableEq α] (p l : List α) :
    seqStartsWith p l = true ↔ p <+: l := by
  induction p generalizing l with
  | nil => simp [seqStartsWith]
  | cons a ps ih =>
    cases l with
    | nil => simp [seqStartsWith]
    | cons b ds =>
      simp only [seqStartsWith, Bool.and_eq_true, decide_eq_true_eq, ih,
        List.cons_prefix_cons]

/-- Characterization of `seqContains` as contiguous containment. -/
theorem seqContains_iff {α : Type} [DecidableEq α] (p l : List α) :
    seqContains p l = true ↔ p <:+: l := by
  induction l with
  | nil => simp [seqContains, List.isEmpty_iff]
  | cons b ds ih =>
    simp only [seqContains, Bool.or_eq_true, seqStartsWith_iff, ih,
      List.infix_cons_iff]

/-- C6: the MVC-marker sanity check on the concatenated dependent-view stream
succeeds iff the byte content contains `00 00 01 0F` or `00 00 01 14`, and
when it fails `create_3d_video_streams` exits with status 1. -/
theorem C6_mvc_nal_check (data : List Nat) :
    (contains_mvc_nal_units data = true ↔
      ([0x00, 0x00, 0x01, 0x0f] <:+: data ∨ [0x00, 0x00, 0x01, 0x14] <:+: data))
    ∧ (mvc_check_exit data = some 1 ↔ contains_mvc_nal_units data = false) := by
  constructor
  · simp [contains_mvc_nal_units, seqContains_iff]
  · simp only [mvc_check_exit]
    cases h : contains_mvc_nal_units data <;> simp [h]

/-- C5: `should_skip_encoding` returns `True` exactly when `left_eye.264`
exists with positive size, a `temp_chunk_*_dep.264` file is listed in the
directory, and the user confirms; in every other case (in particular an
existing but empty `left_eye.264`) it returns `False`. -/
theorem C5_should_skip_encoding (w : WorkDir) (user_says_yes : Bool) :
    should_skip_encoding w user_says_yes = true ↔
      (w.left_eye_exists = true ∧ 0 < w.left_eye_size
        ∧ dep_chunks_exist w = true ∧ user_says_yes = true) := by
  simp only [should_skip_encoding]
  cases h1 : w.left_eye_exists <;>
    cases h2 : dep_chunks_exist w <;>
      cases h3 : decide (0 < w.left_eye_size) <;>
        simp_all [decide_eq_true_eq]

/-- The per-chunk frame count shifts by one chunk when 300 frames are
removed from the front of the timeline. -/
theorem frames_in_chunk_shift (n i : Nat) :
    frames_in_chunk n (i + 1) = frames_in_chunk (n - 300) i := by
  have h : n - (i + 1) * 300 = (n - 300) - i * 300 := by omega
  simp [frames_in_chunk, start_frame, CHUNK_SIZE_FRAMES, h]

/-- The chunk sizes computed by `create_3d_video_streams` sum to the total
frame count. -/
theorem chunk_sizes_sum (n : Nat) (h1 : 1 ≤ n) :
    (Finset.range (num_chunks n)).sum (frames_in_chunk n) = n := by
  induction n using Nat.strong_induction_on with
  | _ n ih =>
    by_cases hle : n ≤ 300
    · have hnc : num_chunks n = 1 := by
        simp only [num_chunks, CHUNK_SIZE_FRAMES]; omega
      rw [hnc]
      simp [frames_in_chunk, start_frame, CHUNK_SIZE_FRAMES]
      omega
    · push_neg at hle
      have hnc : num_chunks n = num_chunks (n - 300) + 1 := by
        simp only [num_chunks, CHUNK_SIZE_FRAMES]; omega
      rw [hnc, Finset.sum_range_succ']
      rw [Finset.sum_congr rfl (fun i _ => frames_in_chunk_shift n i)]
      rw [ih (n - 300) (by omega) (by omega)]
      simp [frames_in_chunk, start_frame, CHUNK_SIZE_FRAMES]
      omega

/-- C4: for every total frame count `n ≥ 1`, the encoder partitions the
timeline into `⌈n / 300⌉` consecutive chunks: chunk `i` starts at frame
`300 * i`, holds `min 300 (n - 300 * i)` frames, each chunk is non-empty,
and the chunk sizes sum to `n`. -/
theorem C4_chunk_partition (n : Nat) (h : 1 ≤ n) :
    num_chunks n = (n + 299) / 300
    ∧ (∀ i, i < num_chunks n →
        start_frame i = 300 * i
        ∧ frames_in_chunk n i = min 300 (n - 300 * i)
        ∧ 1 ≤ frames_in_chunk n i)
    ∧ (Finset.range (num_chunks n)).sum (frames_in_chunk n) = n := by
  refine ⟨rfl, fun i hi => ?_, chunk_sizes_sum n h⟩
  simp only [num_chunks, CHUNK_SIZE_FRAMES] at hi
  refine ⟨by simp [start_frame, CHUNK_SIZE_FRAMES, Nat.mul_comm], ?_, ?_⟩
  · simp [frames_in_chunk, start_frame, CHUNK_SIZE_FRAMES, Nat.mul_comm]
  · simp only [frames_in_chunk, start_frame, CHUNK_SIZE_FRAMES]
    omega

/-- Witness for C4 at the concrete frame count 722 (three chunks of sizes
300, 300, 122). -/
theorem C4_chunk_partition_witness :
    1 ≤ 722
    ∧ (num_chunks 722 = (722 + 299) / 300
      ∧ (∀ i, i < num_chunks 722 →
          start_frame i = 300 * i
          ∧ frames_in_chunk 722 i = min 300 (722 - 300 * i)
          ∧ 1 ≤ frames_in_chunk 722 i)
      ∧ (Finset.range (num_chunks 722)).sum (frames_in_chunk 722) = 722) :=
  ⟨by decide, C4_chunk_partition 722 (by decide)⟩

/-- C7: with both dimensions probed and a positive height, `analyze_video`
labels the video `Full SBS` exactly when `total_width / total_height > 2.5`,
and `Half SBS` otherwise. -/
theorem C7_sbs_type (total_width total_height : Nat) (h : 0 < total_height) :
    (sbs_type total_width total_height = "Full SBS" ↔
      (total_width : ℚ) / (total_height : ℚ) > 2.5)
    ∧ (sbs_type total_width total_height = "Half SBS" ↔
      ¬ ((total_width : ℚ) / (total_height : ℚ) > 2.5)) := by
  simp only [sbs_type]
  split
  · rename_i hgt
    refine ⟨⟨fun _ => hgt, fun _ => rfl⟩, ⟨fun hcontra => ?_, fun hn => absurd hgt hn⟩⟩
    exact absurd hcontra (by decide)
  · rename_i hle
    refine ⟨⟨fun hcontra => absurd hcontra.symm (by decide), fun hgt => absurd hgt hle⟩,
      ⟨fun _ => hle, fun _ => rfl⟩⟩

/-- Witness for C7 at a 3840x1080 full side-by-side frame. -/
theorem C7_sbs_type_witness :
    0 < 1080
    ∧ ((sbs_type 3840 1080 = "Full SBS" ↔ (3840 : ℚ) / (1080 : ℚ) > 2.5)
      ∧ (sbs_type 3840 1080 = "Half SBS" ↔ ¬ ((3840 : ℚ) / (1080 : ℚ) > 2.5))) :=
  ⟨by decide, C7_sbs_type 3840 1080 (by decide)⟩

/-- C10: every geometry record produced by `analyze_video` satisfies
`top_bar_height + active_height + bottom_bar_height = total_height`,
`has_black_bars` holds iff one of the bars is positive, and the no-crop
outcome keeps the full frame with zero bars. -/
theorem C10_crop_geometry_invariant (total_width total_height : Nat)
    (crop : Option (Nat × Nat × Nat × Nat)) :
    ((crop_geometry total_width total_height crop).top_bar_height
        + (crop_geometry total_width total_height crop).active_height
        + (crop_geometry total_width total_height crop).bottom_bar_height
      = (total_height : Int))
    ∧ ((crop_geometry total_width total_height crop).has_black_bars = true ↔
        0 < (crop_geometry total_width total_height crop).top_bar_height
        ∨ 0 < (crop_geometry total_width total_height crop).bottom_bar_height)
    ∧ crop_geometry total_width total_height none =
        { has_black_bars := false, active_width := total_width,
          active_height := total_height, top_bar_height := 0, bottom_bar_height := 0 } := by
  refine ⟨?_, ?_, rfl⟩
  · rcases crop with _ | ⟨w, h, x, y⟩
    · simp [crop_geometry]
    · simp only [crop_geometry]
      ring
  · rcases crop with _ | ⟨_w, _h, _x, _y⟩
    · simp [crop_geometry]
    · simp [crop_geometry, decide_eq_true_eq]

/-- C1 (claim refuted — bug in the code): after `create_3d_video_streams`
completes successfully on an initially empty working directory with a
1-frame source, the concatenation step has deleted every
`temp_chunk_*_dep.264` file, so `create_bluray_structure` finds none and
aborts with its `Dependent view chunks (*_dep.264) not found` exit — even
though both concatenated eye streams were produced. -/
theorem C1_dep_chunks_deleted_before_mux :
    "left_eye.264" ∈ create_3d_video_streams_files 1 []
    ∧ "right_eye.264" ∈ create_3d_video_streams_files 1 []
    ∧ muxer_dep_chunk_search (create_3d_video_streams_files 1 []) = []
    ∧ create_bluray_structure_precheck (create_3d_video_streams_files 1 []) =
        .missing_dep_chunks := by
  decide

/-- C2 (claim refuted — bug in the code): `main` passes one positional
argument to `validate_bdmv_structure`, which requires two, so the call can
never bind; whatever the validator would have returned, the run ends in the
generic unexpected-error handler and `Validation Successful` is never
reported. -/
theorem C2_validation_call_arity_mismatch :
    accepts_n_args validate_bdmv_structure_sig main_validate_call_arg_count = false
    ∧ (∀ validator_result : Bool,
        main_post_mux validator_result = .unexpectedError) := by
  exact ⟨rfl, fun r => by cases r <;> rfl⟩

/-- C8 counterexample: on a PATH that carries ffmpeg, ffprobe, a modern
tsMuxeR and mkvextract but no `FRIMEncode64`, the dependency checker
returns normally instead of exiting — the stereoscopic encoder is not in
its dependency list. -/
theorem C8_frim_not_checked :
    frim_absent_env.which "FRIMEncode64" = none
    ∧ check_system_dependencies frim_absent_env = none := by
  constructor
  · rfl
  · decide

/-- C8 (amended): if any of the four tools the checker actually looks for —
ffmpeg, ffprobe, tsmuxer, mkvextract — is absent from the PATH, then
`check_system_dependencies` exits the process with status 1. -/
theorem C8_missing_dependency_exits (env : SysEnv) (dep : String)
    (hdep : dep ∈ dependencies) (habsent : env.which dep = none) :
    check_system_dependencies env = some 1 := by
  have hall : dependencies.all (fun d => (env.which d).isSome) = false := by
    rw [List.all_eq_false]
    exact ⟨dep, hdep, by simp [habsent]⟩
  simp [check_system_dependencies, hall]

/-- Witness for the amended C8: an environment lacking ffprobe is rejected. -/
theorem C8_missing_dependency_exits_witness :
    "ffprobe" ∈ dependencies
    ∧ ({ which := fun _ => none, tsmuxer_probe := none } : SysEnv).which "ffprobe" = none
    ∧ check_system_dependencies { which := fun _ => none, tsmuxer_probe := none } = some 1 :=
  ⟨by decide, rfl,
    C8_missing_dependency_exits { which := fun _ => none, tsmuxer_probe := none }
      "ffprobe" (by decide) rfl⟩

/-- Overwriting one key of a Python dictionary leaves every other key's
value unchanged. -/
theorem dict_lookup_set_ne {α β : Type} (d : PyDict α β) (k k₁ : String)
    (v : PyVal α β) (h : k ≠ k₁) :
    dict_lookup k (dict_set d k₁ v) = dict_lookup k d := by
  induction d with
  | nil =>
    simp only [dict_set, dict_lookup]
    rw [if_neg fun hc => h hc.symm]
  | cons hd rest ih =>
    obtain ⟨k₂, v₂⟩ := hd
    by_cases hk : k₂ = k₁
    · subst hk
      simp only [dict_set, if_pos rfl, dict_lookup]
      rw [if_neg fun hc => h hc.symm, if_neg fun hc => h hc.symm]
    · simp only [dict_set, if_neg hk, dict_lookup]
      by_cases hk₂ : k₂ = k
      · rw [if_pos hk₂, if_pos hk₂]
      · rw [if_neg hk₂, if_neg hk₂, ih]

/-- After `d[k] = v`, looking up `k` yields `v`. -/
theorem dict_lookup_set_self {α β : Type} (d : PyDict α β) (k : String)
    (v : PyVal α β) :
    dict_lookup k (dict_set d k v) = some v := by
  induction d with
  | nil => simp [dict_set, dict_lookup]
  | cons hd rest ih =>
    obtain ⟨k₂, v₂⟩ := hd
    by_cases hk : k₂ = k <;> simp [dict_set, dict_lookup, hk, ih]

/-- Whatever the user types, the prompt loop only ever selects streams that
were offered. -/
theorem select_streams_loop_subset {α : Type} (streams : List α)
    (int_parse : String → Option Int) (inputs : List String) (r : List α)
    (h : select_streams_loop streams int_parse inputs = some r) :
    ∀ x ∈ r, x ∈ streams := by
  induction inputs with
  | nil => simp [select_streams_loop] at h
  | cons raw rest ih =>
    simp only [select_streams_loop] at h
    split at h
    · obtain rfl : streams = r := Option.some.inj h
      exact fun x hx => hx
    · split at h
      · obtain rfl : ([] : List α) = r := Option.some.inj h
        simp
      · split at h
        · exact ih h
        · split at h
          · exact ih h
          · obtain rfl := Option.some.inj h
            intro x hx
            rw [List.mem_filterMap] at hx
            obtain ⟨i, _, hget⟩ := hx
            exact List.get?_mem hget

/-- Same containment for the wrapper that handles the empty-list case. -/
theorem select_streams_by_type_subset {α : Type} (streams : List α)
    (int_parse : String → Option Int) (inputs : List String) (r : List α)
    (h : select_streams_by_type streams int_parse inputs = some r) :
    ∀ x ∈ r, x ∈ streams := by
  simp only [select_streams_by_type] at h
  split at h
  · obtain rfl := Option.some.inj h
    simp
  · exact select_streams_loop_subset streams int_parse inputs r h

/-- C9: whenever `select_tracks` returns, every key except the two stream
keys maps to its original value, and each returned stream list contains
only elements of the corresponding probed list. -/
theorem C9_select_tracks {α β : Type} (props : PyDict α β)
    (int_parse : String → Option Int) (audio_inputs subtitle_inputs : List String)
    (out : PyDict α β)
    (h : select_tracks props int_parse audio_inputs subtitle_inputs = some out) :
    (∀ k, k ≠ "audio_streams" → k ≠ "subtitle_streams" →
      dict_lookup k out = dict_lookup k props)
    ∧ (∃ audio subs sel_audio sel_subs,
        dict_get_streams props "audio_streams" = some audio
        ∧ dict_get_streams props "subtitle_streams" = some subs
        ∧ dict_lookup "audio_streams" out = some (.streams sel_audio)
        ∧ dict_lookup "subtitle_streams" out = some (.streams sel_subs)
        ∧ (∀ x ∈ sel_audio, x ∈ audio) ∧ (∀ x ∈ sel_subs, x ∈ subs)) := by
  unfold select_tracks at h
  split at h
  case h_2 => exact absurd h (by simp)
  case h_1 audio subs ha hs =>
    split at h
    case h_2 => exact absurd h (by simp)
    case h_1 sel_audio sel_subs hsa hss =>
      obtain rfl := Option.some.inj h
      refine ⟨?_, audio, subs, sel_audio, sel_subs, ha, hs, ?_, ?_, ?_, ?_⟩
      · intro k hka hks
        rw [dict_lookup_set_ne _ _ _ _ hks, dict_lookup_set_ne _ _ _ _ hka]
      · rw [dict_lookup_set_ne _ _ _ _ (by decide), dict_lookup_set_self]
      · rw [dict_lookup_set_self]
      · exact select_streams_by_type_subset _ _ _ _ hsa
      · exact select_streams_by_type_subset _ _ _ _ hss

/-- Witness for C9 on a concrete dictionary: the user keeps the second audio
track and drops the subtitles; the unrelated key is untouched and the
selections come from the probed lists. -/
theorem C9_select_tracks_witness :
    select_tracks c9_props c9_parse ["2"] ["none"] = some c9_out
    ∧ ((∀ k, k ≠ "audio_streams" → k ≠ "subtitle_streams" →
          dict_lookup k c9_out = dict_lookup k c9_props)
      ∧ (∃ audio subs sel_audio sel_subs,
          dict_get_streams c9_props "audio_streams" = some audio
          ∧ dict_get_streams c9_props "subtitle_streams" = some subs
          ∧ dict_lookup "audio_streams" c9_out = some (.streams sel_audio)
          ∧ dict_lookup "subtitle_streams" c9_out = some (.streams sel_subs)
          ∧ (∀ x ∈ sel_audio, x ∈ audio) ∧ (∀ x ∈ sel_subs, x ∈ subs))) :=
  ⟨by decide, C9_select_tracks c9_props c9_parse ["2"] ["none"] c9_out (by decide)⟩

/-- C3 counterexample: a fully assembled output tree whose base-view stream
has a non-square SAR, a non-`yuv420p` pixel format, 16 reference frames and
B-frames — failing the repository's own per-stream compliance criteria —
still makes `validate_bdmv_structure` return `True`: the validator never
re-checks SAR, pixel format, level, reference frames or B-frame usage. -/
theorem C3_validator_passes_noncompliant_stream :
    validate_bdmv_structure c3_state c3_props = true
    ∧ c3_state.m2ts_probe = some [c3_stream]
    ∧ c3_stream.sample_aspect_ratio ≠ "1:1"
    ∧ c3_stream.pix_fmt ≠ "yuv420p"
    ∧ 4 < c3_stream.refs
    ∧ c3_stream.has_b_frames ≠ 0
    ∧ stream_is_bluray_compliant c3_stream = false := by
  decide

/-- The jump counter reports zero exactly when every consecutive delta is
within tolerance. -/
theorem count_timing_jumps_eq_zero_iff (e t : ℚ) (l : List ℚ) :
    count_timing_jumps e t l = 0 ↔ List.Chain' (fun a b => |b - a - e| ≤ t) l := by
  induction l with
  | nil => simp [count_timing_jumps]
  | cons a tail ih =>
    cases tail with
    | nil => simp [count_timing_jumps]
    | cons b rest =>
      simp only [count_timing_jumps, List.chain'_cons]
      by_cases hgt : |b - a - e| > t
      · rw [if_pos hgt]
        constructor
        · intro hzero
          exact absurd hzero (by omega)
        · rintro ⟨hle, -⟩
          exact absurd hgt (not_lt.mpr hle)
      · rw [if_neg hgt, Nat.zero_add]
        exact ⟨fun hz => ⟨not_lt.mp hgt, ih.mp hz⟩, fun hc => ih.mpr hc.2⟩

/-- The check `_check_file_structure` passes exactly when every required file and the
`CERTIFICATE` directory are present. -/
theorem check_file_structure_iff (st : BdmvState) :
    check_file_structure st = true ↔
      ((∀ p ∈ required_bdmv_files, p ∈ st.files_present)
        ∧ "CERTIFICATE" ∈ st.dirs_present) := by
  simp [check_file_structure, List.all_eq_true]

/-- The check `_check_m2ts_stream` passes exactly when the stream file exists, the
probe parsed, and the video streams have one of the two accepted shapes. -/
theorem check_m2ts_stream_iff (st : BdmvState) (props : BdProps) :
    check_m2ts_stream st props = true ↔
      ("BDMV/STREAM/00000.m2ts" ∈ st.files_present
        ∧ ∃ ss, st.m2ts_probe = some ss ∧ base_view_ok ss props) := by
  by_cases hm : "BDMV/STREAM/00000.m2ts" ∈ st.files_present
  · simp only [check_m2ts_stream, m2ts_exists, decide_eq_true hm, true_and]
    rw [if_neg (by decide)]
    cases hp : st.m2ts_probe with
    | none => simp
    | some ss =>
      simp only [Option.some.injEq]
      rcases hf : ss.filter (fun s => decide (s.codec_type = "video")) with
        - | ⟨v, - | ⟨w, - | ⟨u, rest⟩⟩⟩
      · simp [base_view_ok, hf]
      · simp [base_view_ok, base_view_checks, hf]
        tauto
      · simp [base_view_ok, base_view_checks, hf]
        tauto
      · simp [base_view_ok, hf]
  · simp [check_m2ts_stream, m2ts_exists, hm]

/-- The check `_check_timing_jumps` passes exactly when the stream file exists and the
timing condition (or one of its skip cases) holds. -/
theorem check_timing_jumps_iff (st : BdmvState) (props : BdProps) :
    check_timing_jumps st props = true ↔
      ("BDMV/STREAM/00000.m2ts" ∈ st.files_present ∧ timing_ok st props) := by
  by_cases hm : "BDMV/STREAM/00000.m2ts" ∈ st.files_present
  · simp only [check_timing_jumps, m2ts_exists, decide_eq_true hm]
    rw [if_neg (by decide)]
    simp only [hm, true_and]
    cases hp : st.timing_probe with
    | none => simp [timing_ok, hp]
    | some ts =>
      simp only [timing_ok, hp, Option.some.injEq, exists_eq_left']
      by_cases hlen : ts.length < 2
      · simp [if_pos hlen, hlen]
      · rw [if_neg hlen]
        cases hf : props.fps_float with
        | none => simp [hf]
        | some q =>
          simp only [hf, Option.some.injEq]
          by_cases hq : q = 0
          · subst hq
            simp [hlen]
          · rw [if_neg hq]
            simp only [decide_eq_true_eq, count_timing_jumps_eq_zero_iff]
            constructor
            · intro hchain
              exact Or.inr (Or.inr (Or.inr ⟨q, rfl, hq, hchain⟩))
            · rintro (hlt | hnone | hzero | ⟨q₁, hq₁, -, hchain⟩)
              · exact absurd hlt hlen
              · exact absurd hnone (by simp)
              · exact absurd hzero hq
              · subst hq₁
                exact hchain
  · simp [check_timing_jumps, m2ts_exists, hm, timing_ok]

/-- The check `_check_mpls_file` passes exactly when the playlist exists and starts
with the `MPLS` magic. -/
theorem check_mpls_file_iff (st : BdmvState) :
    check_mpls_file st = true ↔
      ("BDMV/PLAYLIST/00000.mpls" ∈ st.files_present
        ∧ st.mpls_bytes.take 4 = [77, 80, 76, 83]) := by
  by_cases hm : "BDMV/PLAYLIST/00000.mpls" ∈ st.files_present
  · simp only [check_mpls_file, mpls_exists, decide_eq_true hm]
    rw [if_neg (by decide)]
    simp [hm]
  · simp [check_mpls_file, mpls_exists, hm]

/-- The check `_check_frame_count` passes exactly when the stream file exists, the
count probe parsed, and the count is within 2 of the expectation. -/
theorem check_frame_count_iff (st : BdmvState) (props : BdProps) :
    check_frame_count st props = true ↔
      ("BDMV/STREAM/00000.m2ts" ∈ st.files_present
        ∧ ∃ n, st.frame_count_probe = some n
          ∧ (n - props.total_frames.getD 0).natAbs ≤ 2) := by
  by_cases hm : "BDMV/STREAM/00000.m2ts" ∈ st.files_present
  · simp only [check_frame_count, m2ts_exists, decide_eq_true hm]
    rw [if_neg (by decide)]
    simp only [hm, true_and]
    cases hp : st.frame_count_probe with
    | none => simp [hp]
    | some n => simp [hp]
  · simp [check_frame_count, m2ts_exists, hm]

/-- C3 (amended): `validate_bdmv_structure` returns `True` exactly when the
output path is a directory, every required BDMV file and the `CERTIFICATE`
directory exist, the re-probed main stream parses with one `Stereo High`
video stream or two video streams whose base view has codec `h264` and the
expected frame rate, the DTS timestamps are continuous within ten percent
of the frame interval (or that check is skipped), the playlist carries the
`MPLS` magic bytes, and the counted total frames are within 2 of the
expected value; profile/level/SAR/pixel-format/reference-frame/B-frame
compliance of the stream is not among the checks. -/
theorem C3_validate_bdmv_structure_iff (st : BdmvState) (props : BdProps) :
    validate_bdmv_structure st props = true ↔
      (st.is_output_dir = true
        ∧ (∀ p ∈ required_bdmv_files, p ∈ st.files_present)
        ∧ "CERTIFICATE" ∈ st.dirs_present
        ∧ "BDMV/STREAM/00000.m2ts" ∈ st.files_present
        ∧ (∃ ss, st.m2ts_probe = some ss ∧ base_view_ok ss props)
        ∧ timing_ok st props
        ∧ "BDMV/PLAYLIST/00000.mpls" ∈ st.files_present
        ∧ st.mpls_bytes.take 4 = [77, 80, 76, 83]
        ∧ (∃ n, st.frame_count_probe = some n
            ∧ (n - props.total_frames.getD 0).natAbs ≤ 2)) := by
  cases hd : st.is_output_dir with
  | false => simp [validate_bdmv_structure, hd]
  | true =>
    simp only [validate_bdmv_structure, hd]
    rw [if_neg (by decide)]
    simp only [Bool.and_eq_true, check_file_structure_iff, check_m2ts_stream_iff,
      check_timing_jumps_iff, check_mpls_file_iff, check_frame_count_iff]
    tauto
